import Mathlib

/-!
Verification development for the h5coro HDF5 reader (src/h5coro/h5coro.py).

The Python source is shallowly embedded: pure computations become Lean
functions over `Nat`; the mutable cursor of `H5Dataset` becomes an explicit
state record threaded through the handler functions; the byte resource is a
function `Nat → Nat` giving the byte at each absolute offset; Python
exceptions become an explicit error type, with the distinction between
`FatalError` (caught at the message-dispatch boundary) and other Python
errors (`KeyError`, `AttributeError`, `TypeError`, which the source never
catches) preserved.

Module-level globals of the source (h5coro.py lines 76-78): both
`errorChecking` and `verbose` are `True` at import time, and all embedded
code paths follow those settings.
-/

/-- Python error taxonomy as it matters to h5coro: `FatalError` subclasses
are raised and caught by name; `keyError` and `attributeError` model the
built-in exceptions that the `except FatalError` clauses do not catch;
`notModelled` marks source paths outside the scope of this development
(never exercised by any theorem below). -/
inductive PyErr where
  | fatal (msg : String)
  | keyError (key : Nat)
  | attributeError (attr : String)
  | notModelled
  deriving DecidableEq, Repr

/-- Global `errorChecking` flag, h5coro.py line 76: `errorChecking = True`. -/
def errorChecking : Bool := true

/-- Global `verbose` flag, h5coro.py line 78: `verbose = True`. -/
def verbose : Bool := true

/-- The `INVALID_VALUE` table of h5coro.py lines 66-71, keyed by field width.
The table only has keys 1, 2, 4, 8; other widths are a `KeyError` in the
source and are never used (offset and length sizes are 4 or 8). -/
def INVALID_VALUE : Nat → Nat
  | 1 => 0xFF
  | 2 => 0xFFFF
  | 4 => 0xFFFFFFFF
  | 8 => 0xFFFFFFFFFFFFFFFF
  | _ => 0

/-- The sentinel table agrees with the closed form `2 ^ (8 * w) - 1` used by
the specification for every width in its domain. -/
theorem INVALID_VALUE_eq_two_pow_sub_one :
    INVALID_VALUE 1 = 2 ^ (8 * 1) - 1 ∧ INVALID_VALUE 2 = 2 ^ (8 * 2) - 1 ∧
    INVALID_VALUE 4 = 2 ^ (8 * 4) - 1 ∧ INVALID_VALUE 8 = 2 ^ (8 * 8) - 1 := by
  refine ⟨rfl, rfl, rfl, ?_⟩
  norm_num [INVALID_VALUE]

/-! ## Byte-range cache (`H5Coro.ioRequest`, h5coro.py lines 1892-1919) -/

/-- Constant `H5Coro.CACHE_LINE_SIZE`, h5coro.py line 1863 (the active value
is `0x10`; `0x400000` is commented out in the source). -/
def CACHE_LINE_SIZE : Nat := 0x10

/-- Constant `H5Coro.CACHE_LINE_MASK`, h5coro.py line 1864. -/
def CACHE_LINE_MASK : Nat := 0xFFFFFFFFFFFFFFF0

/-- The driver contract: `driver.read(offset, length)` returns exactly
`length` bytes starting at `offset` of the underlying resource `f`. -/
def driverRead (f : Nat → Nat) (offset length : Nat) : List Nat :=
  (List.range' offset length).map f

/-- State of the shared cache of `H5Coro`: the `cache` dictionary mapping a
line-aligned absolute offset to the bytes of that line, plus a count of the
driver reads issued so far (instrumentation for the I/O-count properties). -/
structure CacheState where
  cache : List (Nat × List Nat)
  reads : Nat
  deriving DecidableEq, Repr

/-- Lookup in the cache dictionary (Python `cache_line in self.cache` /
`self.cache[cache_line]`). -/
def cacheLookup : List (Nat × List Nat) → Nat → Option (List Nat)
  | [], _ => none
  | (k, v) :: rest, key => if k = key then some v else cacheLookup rest key

/-- The populate-if-absent step of `ioRequest` (lines 1899-1900 and
1910-1911): if the line is absent, fetch `CACHE_LINE_SIZE` bytes at the
aligned offset from the driver and insert them. -/
def fetchLine (f : Nat → Nat) (st : CacheState) (line : Nat) :
    List Nat × CacheState :=
  match cacheLookup st.cache line with
  | some v => (v, st)
  | none =>
      let v := driverRead f line CACHE_LINE_SIZE
      (v, ⟨(line, v) :: st.cache, st.reads + 1⟩)

/-- `H5Coro.ioRequest(pos, size)`, h5coro.py lines 1892-1919, for a resource
whose byte at absolute offset `i` is `f i`.  Returns the data together with
the updated cache state. -/
def ioRequest (f : Nat → Nat) (st : CacheState) (baseAddress pos size : Nat) :
    List Nat × CacheState :=
  if size ≤ CACHE_LINE_SIZE then
    let cache_line := (pos + baseAddress) &&& CACHE_LINE_MASK
    let fetched := fetchLine f st cache_line
    let start_index := (pos + baseAddress) - cache_line
    let stop_index := start_index + size
    if stop_index ≤ CACHE_LINE_SIZE then
      ((fetched.1.drop start_index).take (stop_index - start_index), fetched.2)
    else
      let next_cache_line := (cache_line + stop_index) &&& CACHE_LINE_MASK
      let fetched2 := fetchLine f fetched.2 next_cache_line
      let next_stop_index := stop_index - CACHE_LINE_SIZE
      (fetched.1.drop start_index ++ fetched2.1.take next_stop_index, fetched2.2)
  else
    (driverRead f (pos + baseAddress) size, ⟨st.cache, st.reads + 1⟩)

/-- Cache invariant: every cached line holds exactly the driver bytes of its
aligned offset (lines are immutable once inserted). -/
def CacheConsistent (f : Nat → Nat) (st : CacheState) : Prop :=
  ∀ k v, cacheLookup st.cache k = some v → v = driverRead f k CACHE_LINE_SIZE

theorem cacheConsistent_empty (f : Nat → Nat) (r : Nat) :
    CacheConsistent f ⟨[], r⟩ := by
  intro k v h
  simp [cacheLookup] at h

/-- Masking with `CACHE_LINE_MASK` aligns a below-2^64 offset down to a
multiple of 16. -/
theorem land_cache_line_mask (x : Nat) (hx : x < 2 ^ 64) :
    x &&& CACHE_LINE_MASK = x / 16 * 16 := by
  have hmask : CACHE_LINE_MASK = (2 ^ 60 - 1) <<< 4 := by
    norm_num [CACHE_LINE_MASK, Nat.shiftLeft_eq]
  have hdiv : x / 16 * 16 = ((x >>> 4) % 2 ^ 60) <<< 4 := by
    have hlt : x >>> 4 < 2 ^ 60 := by
      rw [Nat.shiftRight_eq_div_pow]
      omega
    rw [Nat.mod_eq_of_lt hlt, Nat.shiftLeft_eq, Nat.shiftRight_eq_div_pow]
  rw [hmask, hdiv]
  apply Nat.eq_of_testBit_eq
  intro i
  simp only [Nat.testBit_and, Nat.testBit_shiftLeft, Nat.testBit_shiftRight,
    Nat.testBit_two_pow_sub_one, Nat.testBit_mod_two_pow]
  by_cases h4 : 4 ≤ i
  · by_cases h64 : i < 64
    · have hi : 4 + (i - 4) = i := by omega
      simp [h4, hi, show i - 4 < 60 by omega]
    · have hbit : x.testBit i = false :=
        Nat.testBit_lt_two_pow
          (lt_of_lt_of_le hx (Nat.pow_le_pow_right (by norm_num) (by omega)))
      simp [hbit, show ¬(i - 4 < 60) by omega]
  · simp [h4]

theorem driverRead_length (f : Nat → Nat) (offset length : Nat) :
    (driverRead f offset length).length = length := by
  simp [driverRead]

theorem range'_decomp (s k n : Nat) (h : k ≤ n) :
    List.range' s n = List.range' s k ++ List.range' (s + k) (n - k) := by
  have := List.range'_append_1 s k (n - k)
  rw [show n - k + k = n by omega] at this
  exact this.symm

theorem driverRead_append (f : Nat → Nat) (offset m p : Nat) :
    driverRead f offset m ++ driverRead f (offset + m) p =
      driverRead f offset (m + p) := by
  simp only [driverRead, ← List.map_append, List.range'_append_1]
  rw [show m + p = p + m by omega]

theorem driverRead_drop (f : Nat → Nat) (offset n k : Nat) (h : k ≤ n) :
    (driverRead f offset n).drop k = driverRead f (offset + k) (n - k) := by
  rw [driverRead, range'_decomp offset k n h, List.map_append]
  exact List.drop_left' (by simp)

theorem driverRead_take (f : Nat → Nat) (offset n k : Nat) (h : k ≤ n) :
    (driverRead f offset n).take k = driverRead f offset k := by
  rw [driverRead, range'_decomp offset k n h, List.map_append]
  exact List.take_left' (by simp)

theorem fetchLine_of_lookup (f : Nat → Nat) (st : CacheState) (line : Nat)
    (v : List Nat) (h : cacheLookup st.cache line = some v) :
    fetchLine f st line = (v, st) := by
  simp [fetchLine, h]

theorem fetchLine_lookup_self (f : Nat → Nat) (st : CacheState) (line : Nat) :
    cacheLookup (fetchLine f st line).2.cache line = some (fetchLine f st line).1 := by
  unfold fetchLine
  cases h : cacheLookup st.cache line with
  | some v => simp [h]
  | none => simp [h, cacheLookup]

theorem fetchLine_lookup_mono (f : Nat → Nat) (st : CacheState) (line k : Nat)
    (v : List Nat) (h : cacheLookup st.cache k = some v) :
    cacheLookup (fetchLine f st line).2.cache k = some v := by
  unfold fetchLine
  cases hl : cacheLookup st.cache line with
  | some w => simpa [hl] using h
  | none =>
      simp only [hl, cacheLookup]
      by_cases hk : line = k
      · subst hk
        rw [h] at hl
        cases hl
      · simp [hk, h]

theorem fetchLine_consistent (f : Nat → Nat) (st : CacheState) (line : Nat)
    (hc : CacheConsistent f st) : CacheConsistent f (fetchLine f st line).2 := by
  unfold fetchLine
  cases hl : cacheLookup st.cache line with
  | some w => simpa using hc
  | none =>
      intro k v h
      simp only [cacheLookup] at h
      by_cases hk : line = k
      · subst hk
        simp only [if_pos rfl] at h
        cases h
        rfl
      · simp only [if_neg hk] at h
        exact hc k v h

theorem fetchLine_val (f : Nat → Nat) (st : CacheState) (line : Nat)
    (hc : CacheConsistent f st) :
    (fetchLine f st line).1 = driverRead f line CACHE_LINE_SIZE := by
  unfold fetchLine
  cases hl : cacheLookup st.cache line with
  | some w => simpa using hc line w hl
  | none => simp

theorem fetchLine_reads_le (f : Nat → Nat) (st : CacheState) (line : Nat) :
    (fetchLine f st line).2.reads ≤ st.reads + 1 := by
  unfold fetchLine
  cases hl : cacheLookup st.cache line <;> simp

theorem ioRequest_data (f : Nat → Nat) (st : CacheState) (baseAddress pos size : Nat)
    (hc : CacheConsistent f st)
    (hr : pos + baseAddress + 2 * CACHE_LINE_SIZE ≤ 2 ^ 64) :
    (ioRequest f st baseAddress pos size).1 = driverRead f (pos + baseAddress) size := by
  unfold ioRequest
  by_cases hsz : size ≤ CACHE_LINE_SIZE
  · rw [if_pos hsz]
    have hLINE : CACHE_LINE_SIZE = 16 := rfl
    have haLt : pos + baseAddress < 2 ^ 64 := by
      rw [hLINE] at hr; omega
    have hline : (pos + baseAddress) &&& CACHE_LINE_MASK =
        (pos + baseAddress) / 16 * 16 := land_cache_line_mask _ haLt
    rw [hline]
    have hlineLe : (pos + baseAddress) / 16 * 16 ≤ pos + baseAddress :=
      Nat.div_mul_le_self _ 16
    have hstartLt : (pos + baseAddress) - (pos + baseAddress) / 16 * 16 < 16 := by
      omega
    have hval : (fetchLine f st ((pos + baseAddress) / 16 * 16)).1 =
        driverRead f ((pos + baseAddress) / 16 * 16) CACHE_LINE_SIZE :=
      fetchLine_val f st _ hc
    by_cases hstop : (pos + baseAddress) - (pos + baseAddress) / 16 * 16 + size
        ≤ CACHE_LINE_SIZE
    · rw [if_pos hstop]
      simp only [hval, hLINE] at *
      rw [Nat.add_sub_cancel_left,
        driverRead_drop f _ 16 _ (by omega),
        driverRead_take f _ _ size (by omega)]
      congr 1
      omega
    · rw [if_neg hstop]
      have hnextLt : (pos + baseAddress) / 16 * 16 +
          ((pos + baseAddress) - (pos + baseAddress) / 16 * 16 + size) < 2 ^ 64 := by
        rw [hLINE] at hr hsz; omega
      have hnext : ((pos + baseAddress) / 16 * 16 +
          ((pos + baseAddress) - (pos + baseAddress) / 16 * 16 + size))
            &&& CACHE_LINE_MASK
          = (pos + baseAddress) / 16 * 16 + 16 := by
        rw [land_cache_line_mask _ hnextLt]
        rw [hLINE] at hsz hstop
        omega
      rw [hnext]
      have hval2 : (fetchLine f (fetchLine f st ((pos + baseAddress) / 16 * 16)).2
          ((pos + baseAddress) / 16 * 16 + 16)).1 =
          driverRead f ((pos + baseAddress) / 16 * 16 + 16) CACHE_LINE_SIZE :=
        fetchLine_val f _ _ (fetchLine_consistent f st _ hc)
      simp only [hval, hval2, hLINE] at *
      rw [driverRead_drop f _ 16 _ (by omega),
        driverRead_take f _ 16 _ (by omega)]
      rw [show (pos + baseAddress) / 16 * 16 +
            ((pos + baseAddress) - (pos + baseAddress) / 16 * 16) =
            pos + baseAddress by omega] at *
      rw [show (pos + baseAddress) / 16 * 16 + 16 =
            (pos + baseAddress) + (16 - ((pos + baseAddress) -
              (pos + baseAddress) / 16 * 16)) by omega]
      rw [driverRead_append]
      congr 1
      omega
  · rw [if_neg hsz]

theorem ioRequest_reads_le (f : Nat → Nat) (st : CacheState)
    (baseAddress pos size : Nat) :
    (ioRequest f st baseAddress pos size).2.reads ≤ st.reads + 2 := by
  unfold ioRequest
  by_cases hsz : size ≤ CACHE_LINE_SIZE
  · rw [if_pos hsz]
    by_cases hstop : (pos + baseAddress) -
        ((pos + baseAddress) &&& CACHE_LINE_MASK) + size ≤ CACHE_LINE_SIZE
    · rw [if_pos hstop]
      have := fetchLine_reads_le f st ((pos + baseAddress) &&& CACHE_LINE_MASK)
      simpa using Nat.le_trans this (by omega)
    · rw [if_neg hstop]
      have h1 := fetchLine_reads_le f st ((pos + baseAddress) &&& CACHE_LINE_MASK)
      have h2 := fetchLine_reads_le f
        (fetchLine f st ((pos + baseAddress) &&& CACHE_LINE_MASK)).2
        ((((pos + baseAddress) &&& CACHE_LINE_MASK) +
          ((pos + baseAddress) - ((pos + baseAddress) &&& CACHE_LINE_MASK) + size))
          &&& CACHE_LINE_MASK)
      simp only []
      omega
  · rw [if_neg hsz]
    simp

theorem ioRequest_consistent (f : Nat → Nat) (st : CacheState)
    (baseAddress pos size : Nat) (hc : CacheConsistent f st) :
    CacheConsistent f (ioRequest f st baseAddress pos size).2 := by
  unfold ioRequest
  by_cases hsz : size ≤ CACHE_LINE_SIZE
  · rw [if_pos hsz]
    by_cases hstop : (pos + baseAddress) -
        ((pos + baseAddress) &&& CACHE_LINE_MASK) + size ≤ CACHE_LINE_SIZE
    · rw [if_pos hstop]
      exact fetchLine_consistent f st _ hc
    · rw [if_neg hstop]
      exact fetchLine_consistent f _ _ (fetchLine_consistent f st _ hc)
  · rw [if_neg hsz]
    exact hc

theorem ioRequest_state_stable (f : Nat → Nat) (st : CacheState)
    (baseAddress pos size : Nat) (hsz : size ≤ CACHE_LINE_SIZE) :
    (ioRequest f (ioRequest f st baseAddress pos size).2 baseAddress pos size).2
      = (ioRequest f st baseAddress pos size).2 := by
  unfold ioRequest
  rw [if_pos hsz, if_pos hsz]
  by_cases hstop : (pos + baseAddress) -
      ((pos + baseAddress) &&& CACHE_LINE_MASK) + size ≤ CACHE_LINE_SIZE
  · rw [if_pos hstop, if_pos hstop]
    simp only []
    rw [fetchLine_of_lookup f _ _ _ (fetchLine_lookup_self f st _)]
  · rw [if_neg hstop, if_neg hstop]
    simp only []
    have hmem1 : cacheLookup
        (fetchLine f (fetchLine f st ((pos + baseAddress) &&& CACHE_LINE_MASK)).2
          ((((pos + baseAddress) &&& CACHE_LINE_MASK) +
            ((pos + baseAddress) - ((pos + baseAddress) &&& CACHE_LINE_MASK) + size))
            &&& CACHE_LINE_MASK)).2.cache
        ((pos + baseAddress) &&& CACHE_LINE_MASK)
        = some (fetchLine f st ((pos + baseAddress) &&& CACHE_LINE_MASK)).1 :=
      fetchLine_lookup_mono f _ _ _ _ (fetchLine_lookup_self f st _)
    rw [fetchLine_of_lookup f _ _ _ hmem1]
    rw [fetchLine_of_lookup f _ _ _ (fetchLine_lookup_self f _ _)]

/-- C4: for every offset and size, with a driver that returns exactly the
requested bytes, `ioRequest(o, n)` returns exactly `n` bytes equal to
`driver.read(o + base_address, n)`, and for `n ≤ 2 * CACHE_LINE_SIZE` the
number of driver reads issued to service the request is at most 2 (at most
two cache lines are spliced; larger requests bypass the cache with one
direct read).  Hypotheses: the shared cache is consistent with the driver
(as maintained by every fill), and the absolute offset stays within the
64-bit range on which `CACHE_LINE_MASK` is an align-down. -/
theorem ioRequest_bytes_exact_and_coalesced
    (f : Nat → Nat) (st : CacheState) (baseAddress pos size : Nat)
    (hc : CacheConsistent f st)
    (hr : pos + baseAddress + 2 * CACHE_LINE_SIZE ≤ 2 ^ 64)
    (hsz : size ≤ 2 * CACHE_LINE_SIZE) :
    (ioRequest f st baseAddress pos size).1 = driverRead f (pos + baseAddress) size ∧
    (ioRequest f st baseAddress pos size).1.length = size ∧
    (ioRequest f st baseAddress pos size).2.reads ≤ st.reads + 2 := by
  refine ⟨ioRequest_data f st baseAddress pos size hc hr, ?_, ?_⟩
  · rw [ioRequest_data f st baseAddress pos size hc hr]
    exact driverRead_length f (pos + baseAddress) size
  · exact ioRequest_reads_le f st baseAddress pos size

/-- Witness for C4 at a concrete input: an empty cache, base 0, a request of
16 bytes at offset 5 (which splices two adjacent lines). -/
theorem ioRequest_bytes_exact_and_coalesced_witness :
    (ioRequest (fun i => (i * 7 + 3) % 256) ⟨[], 0⟩ 0 5 16).1 =
      driverRead (fun i => (i * 7 + 3) % 256) (5 + 0) 16 ∧
    (ioRequest (fun i => (i * 7 + 3) % 256) ⟨[], 0⟩ 0 5 16).1.length = 16 ∧
    (ioRequest (fun i => (i * 7 + 3) % 256) ⟨[], 0⟩ 0 5 16).2.reads ≤
      (⟨[], 0⟩ : CacheState).reads + 2 :=
  ioRequest_bytes_exact_and_coalesced (fun i => (i * 7 + 3) % 256) ⟨[], 0⟩ 0 5 16
    (cacheConsistent_empty _ 0)
    (by norm_num [CACHE_LINE_SIZE])
    (by norm_num [CACHE_LINE_SIZE])

/-- C5 counterexample: the idempotence claim quantifies over every size, but
a request larger than one cache line takes the bypass path and issues a
driver read on each call.  With the 16-byte line of the source, issuing
`ioRequest(0, 17)` twice makes the second call issue one further driver
read, not zero. -/
theorem ioRequest_idempotence_counterexample :
    (ioRequest (fun _ => 0)
        (ioRequest (fun _ => 0) ⟨[], 0⟩ 0 0 17).2 0 0 17).2.reads = 2 ∧
    ¬ ((ioRequest (fun _ => 0)
        (ioRequest (fun _ => 0) ⟨[], 0⟩ 0 0 17).2 0 0 17).2.reads
      = (ioRequest (fun _ => 0) ⟨[], 0⟩ 0 0 17).2.reads) := by
  constructor <;> decide

/-- C5 amended: two successive `ioRequest(o, n)` with the same arguments
return byte-identical results for every size, and when `n ≤ CACHE_LINE_SIZE`
(the cached path) the second call issues zero driver reads; a request larger
than one line bypasses the cache and issues one direct driver read on every
call. -/
theorem ioRequest_idempotent_below_line
    (f : Nat → Nat) (st : CacheState) (baseAddress pos size : Nat)
    (hc : CacheConsistent f st)
    (hr : pos + baseAddress + 2 * CACHE_LINE_SIZE ≤ 2 ^ 64) :
    (ioRequest f (ioRequest f st baseAddress pos size).2 baseAddress pos size).1
      = (ioRequest f st baseAddress pos size).1 ∧
    (size ≤ CACHE_LINE_SIZE →
      (ioRequest f (ioRequest f st baseAddress pos size).2 baseAddress pos size).2.reads
        = (ioRequest f st baseAddress pos size).2.reads) := by
  constructor
  · rw [ioRequest_data f st baseAddress pos size hc hr,
      ioRequest_data f _ baseAddress pos size
        (ioRequest_consistent f st baseAddress pos size hc) hr]
  · intro hsz
    rw [ioRequest_state_stable f st baseAddress pos size hsz]

/-- Witness for C5 at a concrete input: an empty cache, base 0, an 8-byte
request at offset 3; the second call returns the same bytes and issues zero
driver reads. -/
theorem ioRequest_idempotent_below_line_witness :
    (ioRequest (fun i => i % 256)
        (ioRequest (fun i => i % 256) ⟨[], 5⟩ 0 3 8).2 0 3 8).1
      = (ioRequest (fun i => i % 256) ⟨[], 5⟩ 0 3 8).1 ∧
    (8 ≤ CACHE_LINE_SIZE →
      (ioRequest (fun i => i % 256)
          (ioRequest (fun i => i % 256) ⟨[], 5⟩ 0 3 8).2 0 3 8).2.reads
        = (ioRequest (fun i => i % 256) ⟨[], 5⟩ 0 3 8).2.reads) :=
  ioRequest_idempotent_below_line (fun i => i % 256) ⟨[], 5⟩ 0 3 8
    (cacheConsistent_empty _ 5)
    (by norm_num [CACHE_LINE_SIZE])

/-! ## H5Dataset state and primitive decoders (h5coro.py lines 99-234) -/

/-- Message-type constants of `H5Dataset`, h5coro.py lines 136-146. -/
def DATASPACE_MSG : Nat := 0x1

def LINK_INFO_MSG : Nat := 0x2

def DATATYPE_MSG : Nat := 0x3

def FILL_VALUE_MSG : Nat := 0x5

def LINK_MSG : Nat := 0x6

def DATA_LAYOUT_MSG : Nat := 0x8

def FILTER_MSG : Nat := 0xB

def ATTRIBUTE_MSG : Nat := 0xC

def HEADER_CONT_MSG : Nat := 0x10

def SYMBOL_TABLE_MSG : Nat := 0x11

def ATTRIBUTE_INFO_MSG : Nat := 0x15

/-- Datatype class constants, h5coro.py lines 119-130. -/
def FIXED_POINT_TYPE : Nat := 0

def FLOATING_POINT_TYPE : Nat := 1

def STRING_TYPE : Nat := 3

def VARIABLE_LENGTH_TYPE : Nat := 9

/-- Constant `H5Dataset.MAX_NDIMS`, h5coro.py line 107. -/
def MAX_NDIMS : Nat := 2

/-- Per-request mutable state of an `H5Dataset` worker, restricted to the
fields the embedded handlers touch (constructor lines 186-218).  The
read-only `offsetSize` and `lengthSize` of the shared `resourceObject` are
carried here as well.  `fractalHeapReads` instruments the calls to
`readFractalHeap` (whose body is outside the scope of this development):
each call is recorded as the pair of its `msg_type` and `heap_address`
arguments. -/
structure DState where
  pos : Nat
  datasetPath : List String
  datasetLevel : Nat
  datasetFound : Bool
  ndims : Option Nat
  dimensions : List Nat
  typeSize : Nat
  type : Option Nat
  signedval : Bool
  offsetSize : Nat
  lengthSize : Nat
  fractalHeapReads : List (Nat × Nat)
  deriving DecidableEq, Repr

/-- The dataset-state initialization of `H5Dataset.__init__` (lines 186-218)
for the fields of `DState`; the path is passed already split, and the
superblock sizes of the resource object are passed in. -/
def H5Dataset_init (rootAddress : Nat) (path : List String)
    (offsetSize lengthSize : Nat) : DState :=
  { pos := rootAddress
    datasetPath := path
    datasetLevel := 0
    datasetFound := false
    ndims := none
    dimensions := []
    typeSize := 0
    type := none
    signedval := true
    offsetSize := offsetSize
    lengthSize := lengthSize
    fractalHeapReads := [] }

/-- Little-endian decoding of `size` bytes of the resource at `pos`
(`struct.unpack` with formats B/H/I/Q in `readField`). -/
def leDecode (stream : Nat → Nat) (pos : Nat) : Nat → Nat
  | 0 => 0
  | n + 1 => stream pos + 256 * leDecode stream (pos + 1) n

/-- `H5Dataset.readField(size)`, h5coro.py lines 223-226: decode a
little-endian unsigned field and advance the cursor. -/
def readField (stream : Nat → Nat) (st : DState) (size : Nat) : Nat × DState :=
  (leDecode stream st.pos size, { st with pos := st.pos + size })

/-- `H5Dataset.readArray(size)`, h5coro.py lines 231-234: raw bytes, cursor
advanced. -/
def readArray (stream : Nat → Nat) (st : DState) (size : Nat) :
    List Nat × DState :=
  ((List.range' st.pos size).map stream, { st with pos := st.pos + size })

/-- Byte-list to string decoding used for link names (`bytes.decode` on
ASCII names; every name exercised below is ASCII, where UTF-8 decoding is
the identity on code points). -/
def decodeAscii (bs : List Nat) : String :=
  String.mk (bs.map Char.ofNat)

/-- The dimension-reading loop of `dataspaceMsgHandler` (h5coro.py lines
641-645): read `n` fields of width `lengthSize`, appending each to
`dimensions`. -/
def readDimensions (stream : Nat → Nat) (st : DState) : Nat → DState
  | 0 => st
  | n + 1 =>
      let r := readField stream st st.lengthSize
      readDimensions stream { r.2 with dimensions := r.2.dimensions ++ [r.1] } n

/-- `H5Dataset.dataspaceMsgHandler`, h5coro.py lines 614-653, with the
module settings `errorChecking = True`, `verbose = True`.  The version
check is ported exactly as written in the source:
`if version != 1 or version != 2`. -/
def dataspaceMsgHandler (stream : Nat → Nat) (st0 : DState)
    (msg_size obj_hdr_flags : Nat) : DState × Except PyErr Nat :=
  let starting_position := st0.pos
  let r1 := readField stream st0 1
  let version := r1.1
  let r2 := readField stream r1.2 1
  let dimensionality := r2.1
  let r3 := readField stream r2.2 1
  let flags := r3.1
  let st4 := { r3.2 with pos := r3.2.pos + (if version == 1 then 5 else 1) }
  if errorChecking && (version != 1 || version != 2) then
    (st4, .error (.fatal "unsupported dataspace version"))
  else if errorChecking && ((flags &&& 0x2) != 0) then
    (st4, .error (.fatal "unsupported permutation indexes"))
  else if errorChecking && decide (dimensionality > MAX_NDIMS) then
    (st4, .error (.fatal "unsupported number of dimensions"))
  else
    let ndims := min dimensionality MAX_NDIMS
    let st5 := { st4 with ndims := some ndims }
    if ndims > 0 then
      let st6 := readDimensions stream st5 ndims
      let st7 :=
        if (flags &&& 0x1) != 0 then
          { st6 with pos := st6.pos + dimensionality * st6.lengthSize }
        else st6
      (st7, .ok (st7.pos - starting_position))
    else
      (st5, .ok (st5.pos - starting_position))

/-- `H5Dataset.datatypeMsgHandler`, h5coro.py lines 703-826, with
`errorChecking = True`, `verbose = True` (the verbose branches read the
class-specific descriptor fields). -/
def datatypeMsgHandler (stream : Nat → Nat) (st0 : DState)
    (msg_size obj_hdr_flags : Nat) : DState × Except PyErr Nat :=
  let starting_position := st0.pos
  let r1 := readField stream st0 4
  let version_class := r1.1
  let r2 := readField stream r1.2 4
  let version := (version_class &&& 0xF0) >>> 4
  let databits := version_class >>> 8
  let st3 := { r2.2 with
    typeSize := r2.1
    type := some (version_class &&& 0x0F)
    signedval := ((databits &&& 0x08) >>> 3) == 1 }
  if errorChecking && (version != 1) then
    (st3, .error (.fatal "unsupported datatype version"))
  else if (version_class &&& 0x0F) == FIXED_POINT_TYPE then
    let r4 := readField stream st3 2
    let r5 := readField stream r4.2 2
    (r5.2, .ok (r5.2.pos - starting_position))
  else if (version_class &&& 0x0F) == FLOATING_POINT_TYPE then
    let r4 := readField stream st3 2
    let r5 := readField stream r4.2 2
    let r6 := readField stream r5.2 1
    let r7 := readField stream r6.2 1
    let r8 := readField stream r7.2 1
    let r9 := readField stream r8.2 1
    let r10 := readField stream r9.2 4
    (r10.2, .ok (r10.2.pos - starting_position))
  else if (version_class &&& 0x0F) == VARIABLE_LENGTH_TYPE then
    (st3, .error (.fatal "variable length data types require reading a global heap, which is not yet supported"))
  else if (version_class &&& 0x0F) == STRING_TYPE then
    let st4 := { st3 with typeSize := 1, signedval := true }
    (st4, .ok (st4.pos - starting_position))
  else if errorChecking then
    (st3, .error (.fatal "unsupported datatype"))
  else
    (st3, .ok (st3.pos - starting_position))

/-- `H5Dataset.linkinfoMsgHandler`, h5coro.py lines 658-698.  The descent
condition of line 694 is ported exactly as written in the source:
`if heap_address == INVALID_VALUE[offsetSize]`, and the resulting
`readFractalHeap` call (whose body is outside the scope of this
development) is recorded in `fractalHeapReads`. -/
def linkinfoMsgHandler (stream : Nat → Nat) (st0 : DState)
    (msg_size obj_hdr_flags : Nat) : DState × Except PyErr Nat :=
  let starting_position := st0.pos
  let r1 := readField stream st0 1
  let version := r1.1
  let r2 := readField stream r1.2 1
  let flags := r2.1
  if errorChecking && (version != 0) then
    (r2.2, .error (.fatal "unsupported link info version"))
  else
    let st3 := if (flags &&& 0x1) != 0 then (readField stream r2.2 8).2 else r2.2
    let r4 := readField stream st3 st3.offsetSize
    let heap_address := r4.1
    let r5 := readField stream r4.2 r4.2.offsetSize
    let st6 :=
      if (flags &&& 0x2) != 0 then (readField stream r5.2 r5.2.offsetSize).2
      else r5.2
    let st7 :=
      if heap_address == INVALID_VALUE st6.offsetSize then
        { st6 with fractalHeapReads := st6.fractalHeapReads ++ [(LINK_MSG, heap_address)] }
      else st6
    (st7, .ok (st7.pos - starting_position))

/-- `H5Dataset.attributeinfoMsgHandler`, h5coro.py lines 1294-1334.  The
descent condition of line 1330 is ported exactly as written in the source:
`if heap_address == INVALID_VALUE[offsetSize]`; the max-creation-index
field of this handler is 2 bytes wide (line 1312). -/
def attributeinfoMsgHandler (stream : Nat → Nat) (st0 : DState)
    (msg_size obj_hdr_flags : Nat) : DState × Except PyErr Nat :=
  let starting_position := st0.pos
  let r1 := readField stream st0 1
  let version := r1.1
  let r2 := readField stream r1.2 1
  let flags := r2.1
  if errorChecking && (version != 0) then
    (r2.2, .error (.fatal "unsupported link info version"))
  else
    let st3 := if (flags &&& 0x1) != 0 then (readField stream r2.2 2).2 else r2.2
    let r4 := readField stream st3 st3.offsetSize
    let heap_address := r4.1
    let r5 := readField stream r4.2 r4.2.offsetSize
    let st6 :=
      if (flags &&& 0x2) != 0 then (readField stream r5.2 r5.2.offsetSize).2
      else r5.2
    let st7 :=
      if heap_address == INVALID_VALUE st6.offsetSize then
        { st6 with fractalHeapReads := st6.fractalHeapReads ++ [(ATTRIBUTE_MSG, heap_address)] }
      else st6
    (st7, .ok (st7.pos - starting_position))

/-- `H5Dataset.linkMsgHandler`, h5coro.py lines 880-963, with
`errorChecking = True`.  A hard link on the matching path component
recursively walks the target object header in the source; that recursion is
outside the scope of this development and is marked `notModelled` (no
theorem below exercises it). -/
def linkMsgHandler (stream : Nat → Nat) (st0 : DState)
    (msg_size obj_hdr_flags : Nat) : DState × Except PyErr Nat :=
  let starting_position := st0.pos
  let r1 := readField stream st0 1
  let version := r1.1
  let r2 := readField stream r1.2 1
  let flags := r2.1
  if errorChecking && (version != 1) then
    (r2.2, .error (.fatal "unsupported link message version"))
  else
    let rlt := if (flags &&& 0x08) != 0 then readField stream r2.2 1 else (0, r2.2)
    let link_type := rlt.1
    let st3 := if (flags &&& 0x04) != 0 then (readField stream rlt.2 8).2 else rlt.2
    let st4 := if (flags &&& 0x10) != 0 then (readField stream st3 1).2 else st3
    let link_name_len_of_len := 1 <<< (flags &&& 0x03)
    if errorChecking && decide (link_name_len_of_len > 8) then
      (st4, .error (.fatal "invalid link name length of length"))
    else
      let r5 := readField stream st4 link_name_len_of_len
      let r6 := readArray stream r5.2 r5.1
      let link_name := decodeAscii r6.1
      let follow_link := link_name == r6.2.datasetPath.getD r6.2.datasetLevel ""
      let st7 :=
        if follow_link then { r6.2 with datasetLevel := r6.2.datasetLevel + 1 }
        else r6.2
      if link_type == 0 then
        let r8 := readField stream st7 st7.offsetSize
        if follow_link then
          (r8.2, .error .notModelled)
        else
          (r8.2, .ok (r8.2.pos - starting_position))
      else if link_type == 1 then
        let r8 := readField stream st7 2
        let r9 := readArray stream r8.2 r8.1
        if errorChecking && follow_link then
          (r9.2, .error (.fatal "unsupported soft link encountered"))
        else
          (r9.2, .ok (r9.2.pos - starting_position))
      else if link_type == 64 then
        let r8 := readField stream st7 2
        let r9 := readArray stream r8.2 r8.1
        if errorChecking && follow_link then
          (r9.2, .error (.fatal "unsupported external link encountered"))
        else
          (r9.2, .ok (r9.2.pos - starting_position))
      else if errorChecking then
        (st7, .error (.fatal "unsupported link type"))
      else
        (st7, .ok (st7.pos - starting_position))

/-- Signature shared by every entry of the `msg_handler_table` dictionary of
`readMessage` (h5coro.py lines 591-603): a handler takes the resource, the
dataset state and `(msg_size, obj_hdr_flags)` and produces the new state and
either the bytes consumed or a raised exception. -/
def MsgHandler : Type :=
  (Nat → Nat) → DState → Nat → Nat → DState × Except PyErr Nat

/-- Placeholder for the table entries whose handler bodies are outside the
scope of this development (fill value, data layout, filter, attribute,
header continuation, symbol table); no theorem below dispatches to them. -/
def notModelledHandler : MsgHandler := fun _ st _ _ => (st, .error .notModelled)

/-- The `msg_handler_table` dictionary of `H5Dataset.readMessage`, h5coro.py
lines 591-603: a lookup by message type that raises `KeyError` (modelled as
`none`) for types outside the table. -/
def msg_handler_table (msg_type : Nat) : Option MsgHandler :=
  if msg_type == DATASPACE_MSG then some dataspaceMsgHandler
  else if msg_type == LINK_INFO_MSG then some linkinfoMsgHandler
  else if msg_type == DATATYPE_MSG then some datatypeMsgHandler
  else if msg_type == FILL_VALUE_MSG then some notModelledHandler
  else if msg_type == LINK_MSG then some linkMsgHandler
  else if msg_type == DATA_LAYOUT_MSG then some notModelledHandler
  else if msg_type == FILTER_MSG then some notModelledHandler
  else if msg_type == ATTRIBUTE_MSG then some notModelledHandler
  else if msg_type == HEADER_CONT_MSG then some notModelledHandler
  else if msg_type == SYMBOL_TABLE_MSG then some notModelledHandler
  else if msg_type == ATTRIBUTE_INFO_MSG then some attributeinfoMsgHandler
  else none

/-- `H5Dataset.readMessage`, h5coro.py lines 590-609: dispatch through the
handler table, catching `FatalError` (and only `FatalError`) from the
handler and converting it into a return of `msg_size`; a missing table
entry raises `KeyError`, which the `except FatalError` clause does not
catch.  State mutations made by the handler before raising persist, as they
do in the source. -/
def readMessage (stream : Nat → Nat) (st : DState)
    (msg_type msg_size obj_hdr_flags : Nat) : DState × Except PyErr Nat :=
  match msg_handler_table msg_type with
  | none => (st, .error (.keyError msg_type))
  | some handler =>
      match handler stream st msg_size obj_hdr_flags with
      | (st2, .ok n) => (st2, .ok n)
      | (st2, .error (.fatal _)) => (st2, .ok msg_size)
      | (st2, .error e) => (st2, .error e)

/-- The `while self.pos < end_of_hdr` loop of `H5Dataset.readMessagesV0`,
h5coro.py lines 479-501, with `errorChecking = True`.  Per iteration: the
v0/v2 message prefix `msg_type:1, msg_size:2, msg_flags:1` is read, plus
`msg_order:2` when header flag bit 0x4 is set; then `readMessage` runs, its
returned byte count is checked against `msg_size`, the found flag
short-circuits the cursor to `end_of_hdr`, and otherwise the cursor is
advanced by the returned byte count.  The loop is given explicit fuel;
every theorem below supplies more fuel than iterations taken. -/
def readMessagesV0Loop (stream : Nat → Nat) (end_of_hdr obj_hdr_flags : Nat) :
    Nat → DState → DState × Except PyErr Unit
  | 0, st => (st, .error .notModelled)
  | fuel + 1, st =>
      if st.pos < end_of_hdr then
        let r1 := readField stream st 1
        let r2 := readField stream r1.2 2
        let r3 := readField stream r2.2 1
        let st4 :=
          if (obj_hdr_flags &&& 0x4) != 0 then (readField stream r3.2 2).2 else r3.2
        let rm := readMessage stream st4 r1.1 r2.1 obj_hdr_flags
        match rm.2 with
        | .error e => (rm.1, .error e)
        | .ok bytes_read =>
            if errorChecking && (bytes_read != r2.1) then
              (rm.1, .error (.fatal "header message different size than specified"))
            else if rm.1.datasetFound then
              ({ rm.1 with pos := end_of_hdr }, .ok ())
            else
              readMessagesV0Loop stream end_of_hdr obj_hdr_flags fuel
                { rm.1 with pos := rm.1.pos + bytes_read }
      else (st, .ok ())

/-- `H5Dataset.readMessagesV0`, h5coro.py lines 477-508: the message loop
followed by the final byte-count check
`if errorChecking and (self.pos != end_of_hdr)` and the return of the bytes
consumed. -/
def readMessagesV0 (stream : Nat → Nat) (fuel : Nat) (st : DState)
    (end_of_hdr obj_hdr_flags : Nat) : DState × Except PyErr Nat :=
  let starting_position := st.pos
  let r := readMessagesV0Loop stream end_of_hdr obj_hdr_flags fuel st
  match r.2 with
  | .error e => (r.1, .error e)
  | .ok _ =>
      if errorChecking && (r.1.pos != end_of_hdr) then
        (r.1, .error (.fatal "did not read correct number of bytes"))
      else
        (r.1, .ok (r.1.pos - starting_position))

/-- Helper: the version test written in the source of `dataspaceMsgHandler`
(line 625), `version != 1 or version != 2`, is true for every version. -/
theorem bne_one_or_bne_two (v : Nat) : (v != 1 || v != 2) = true := by
  simp only [Bool.or_eq_true, bne_iff_ne, ne_eq]
  omega

/-- C3: the claim states that with error checking enabled the dataspace
handler accepts versions 1 and 2 and rejects the rest.  In the code the
check reads `if version != 1 or version != 2`, which is tautologically
true, so the handler raises the unsupported-dataspace-version error for
every message - including the version-1 and version-2 messages the claim
says are accepted.  This theorem evaluates the code on all inputs: the
result is always that error. -/
theorem dataspaceMsgHandler_rejects_every_version
    (stream : Nat → Nat) (st : DState) (msg_size obj_hdr_flags : Nat) :
    (dataspaceMsgHandler stream st msg_size obj_hdr_flags).2
      = .error (.fatal "unsupported dataspace version") := by
  unfold dataspaceMsgHandler
  simp only [errorChecking, Bool.true_and, bne_one_or_bne_two, if_true]

/-- Byte stream of a v0-framed header holding a single well-formed datatype
message: prefix `msg_type=0x3, msg_size=12, msg_flags=0`, then a 12-byte
fixed-point datatype body (version 1, class 0, signed, size 4, bit offset
0, bit precision 32).  `end_of_hdr = 16`. -/
def c1Stream : Nat → Nat := fun i =>
  [0x03, 0x0C, 0x00, 0x00,
   0x10, 0x08, 0x00, 0x00,
   0x04, 0x00, 0x00, 0x00,
   0x00, 0x00, 0x20, 0x00].getD i 0

/-- Initial dataset state for the header walks below (root address 0,
offset and length sizes 8). -/
def c1State : DState := H5Dataset_init 0 ["x"] 8 8

/-- C1: the claim states that after a handler returns without setting
`found`, the cursor ends exactly `msg_size` bytes past the start of the
message body, i.e. `readMessagesV0` consumes `prefix + msg_size` per
message, counting the handler bytes once.  On the concrete header
`c1Stream` the datatype handler itself advances the cursor to byte 16 (the
end of the 12-byte body) and returns 12; `readMessagesV0` then adds the
returned count again, leaving the cursor at byte 28 = prefix + 2 * 12
instead of 16 = prefix + 12, after which its own final check raises the
did-not-read-correct-number-of-bytes error. -/
theorem readMessagesV0_consumes_twice_msg_size :
    (readMessage c1Stream { c1State with pos := 4 } 0x03 12 0).1.pos = 16 ∧
    (readMessage c1Stream { c1State with pos := 4 } 0x03 12 0).2 = .ok 12 ∧
    (readMessagesV0 c1Stream 8 c1State 16 0).1.pos = 4 + 2 * 12 ∧
    (readMessagesV0 c1Stream 8 c1State 16 0).2
      = .error (.fatal "did not read correct number of bytes") := by
  refine ⟨?_, ?_, ?_, ?_⟩ <;> rfl

/-- Byte stream of a link-info (or attribute-info) message body whose heap
address field (bytes 2-9, offset size 8) is the null sentinel
`0xFFFFFFFFFFFFFFFF`; version 0, flags 0. -/
def c2NullStream : Nat → Nat := fun i => if 2 ≤ i && i < 10 then 0xFF else 0

/-- Byte stream of a link-info (or attribute-info) message body whose heap
address field holds the ordinary file offset `0x10`; version 0, flags 0. -/
def c2ValidStream : Nat → Nat := fun i => if i == 2 then 0x10 else 0

/-- C2: the claim states the handlers descend into the fractal heap iff the
parsed heap address differs from the sentinel `INVALID(offset_size)`.  The
code of lines 694 and 1330 tests `heap_address == INVALID_VALUE[...]`, so
on these concrete messages both handlers descend exactly when the heap
address IS the sentinel and skip an ordinary address - the inverse of the
claim. -/
theorem linkinfo_attrinfo_descend_iff_sentinel :
    (linkinfoMsgHandler c2NullStream (H5Dataset_init 0 ["x"] 8 8) 18 0).1.fractalHeapReads
      = [(LINK_MSG, INVALID_VALUE 8)] ∧
    (linkinfoMsgHandler c2ValidStream (H5Dataset_init 0 ["x"] 8 8) 18 0).1.fractalHeapReads
      = [] ∧
    (attributeinfoMsgHandler c2NullStream (H5Dataset_init 0 ["x"] 8 8) 18 0).1.fractalHeapReads
      = [(ATTRIBUTE_MSG, INVALID_VALUE 8)] ∧
    (attributeinfoMsgHandler c2ValidStream (H5Dataset_init 0 ["x"] 8 8) 18 0).1.fractalHeapReads
      = [] ∧
    INVALID_VALUE 8 = 2 ^ (8 * 8) - 1 := by
  refine ⟨?_, ?_, ?_, ?_, ?_⟩
  · rfl
  · rfl
  · rfl
  · rfl
  · norm_num [INVALID_VALUE]

/-- Byte stream of a link message for a soft link named "a": version 1,
flags 0x08 (link type present), link type 1 (soft), 1-byte name length 1,
name byte 97, 2-byte soft-link length 1, one target byte. -/
def c8Stream : Nat → Nat := fun i => [1, 0x08, 1, 1, 97, 1, 0, 98].getD i 0

/-- C8 counterexample: the claim states a fatal error raised by a handler
for a matching path component is not swallowed and propagates to the
worker.  On `c8Stream` with requested path `["a"]`, the link message
matches the current path component and `linkMsgHandler` raises the fatal
unsupported-soft-link error; yet `readMessage` catches it and returns
`msg_size` as if the message had been skipped, so nothing propagates. -/
theorem readMessage_swallows_matching_fatal_counterexample :
    (linkMsgHandler c8Stream (H5Dataset_init 0 ["a"] 8 8) 8 0).2
      = .error (.fatal "unsupported soft link encountered") ∧
    (readMessage c8Stream (H5Dataset_init 0 ["a"] 8 8) 0x6 8 0).2 = .ok 8 := by
  exact ⟨rfl, rfl⟩

/-- C8 amended: within object-header iteration every `FatalError` raised by
a message handler is caught by `readMessage` and converted into a return of
`msg_size` - whether or not the handler was processing a matching path
component or set `found`; no fatal handler error propagates to the worker
(only non-FatalError exceptions such as `KeyError` do). -/
theorem readMessage_catches_all_handler_fatals
    (stream : Nat → Nat) (st : DState) (msg_type msg_size obj_hdr_flags : Nat)
    (handler : MsgHandler) (st2 : DState) (m : String)
    (htable : msg_handler_table msg_type = some handler)
    (hrun : handler stream st msg_size obj_hdr_flags = (st2, .error (.fatal m))) :
    readMessage stream st msg_type msg_size obj_hdr_flags = (st2, .ok msg_size) := by
  unfold readMessage
  rw [htable]
  dsimp only
  rw [hrun]

/-- Witness for C8 at the concrete matching soft link of `c8Stream`. -/
theorem readMessage_catches_all_handler_fatals_witness :
    readMessage c8Stream (H5Dataset_init 0 ["a"] 8 8) 0x6 8 0
      = ((linkMsgHandler c8Stream (H5Dataset_init 0 ["a"] 8 8) 8 0).1, .ok 8) :=
  readMessage_catches_all_handler_fatals c8Stream (H5Dataset_init 0 ["a"] 8 8)
    0x6 8 0 linkMsgHandler
    (linkMsgHandler c8Stream (H5Dataset_init 0 ["a"] 8 8) 8 0).1
    "unsupported soft link encountered" rfl rfl

/-! ## Chunk B-tree v1 (`H5Dataset.readBTreeV1`, h5coro.py lines 1670-1802) -/

/-- The four-disjunct child-inclusion test of `readBTreeV1`, h5coro.py
lines 1721-1724, where `data_key1 = start_row`,
`data_key2 = start_row + num_rows - 1`, `child_key1` is the row of the key
before the child and `child_key2` the row of the key after it (or
`dimensions[0]` when that key is the `chunk_size == 0` sentinel). -/
def btreeChildIncluded (data_key1 data_key2 child_key1 child_key2 : Nat) : Bool :=
  (decide (data_key1 ≥ child_key1) && decide (data_key1 < child_key2)) ||
  (decide (data_key2 ≥ child_key1) && decide (data_key2 < child_key2)) ||
  (decide (child_key1 ≥ data_key1) && decide (child_key1 ≤ data_key2)) ||
  (decide (child_key2 > data_key1) && decide (child_key2 < data_key2))

/-- The nonempty-intersection condition stated by the spec descent rule:
the closed request interval `[data_key1, data_key2]` meets the half-open
child interval `[child_key1, child_key2)`. -/
def rowIntervalIntersects (data_key1 data_key2 child_key1 child_key2 : Nat) : Prop :=
  ∃ x, data_key1 ≤ x ∧ x ≤ data_key2 ∧ child_key1 ≤ x ∧ x < child_key2

/-- C6 counterexample: when the two bounding keys share the same row (which
happens for rank-2 chunked datasets, where consecutive keys can carry equal
`slice[0]`), the code test and the intersection condition disagree: at
`data_key1 = data_key2 = 0` and `child_key1 = child_key2 = 0` the third
disjunct of the code test fires although `[0, 0] ∩ [0, 0) = ∅`. -/
theorem btreeChildIncluded_counterexample :
    btreeChildIncluded 0 0 0 0 = true ∧ ¬ rowIntervalIntersects 0 0 0 0 := by
  constructor
  · rfl
  · rintro ⟨x, -, -, -, hx⟩
    omega

/-- C6 amended: the four-disjunct inclusion test of the code is equivalent
to the nonempty-intersection condition whenever the request interval is
nonempty (`data_key1 ≤ data_key2`, i.e. `num_rows ≥ 1`) and the bounding
keys have strictly increasing rows (`child_key1 < child_key2`); for equal
key rows the test can include a child whose interval is empty. -/
theorem btreeChildIncluded_iff_intersects
    (d1 d2 c1 c2 : Nat) (hd : d1 ≤ d2) (hc : c1 < c2) :
    btreeChildIncluded d1 d2 c1 c2 = true ↔ rowIntervalIntersects d1 d2 c1 c2 := by
  unfold btreeChildIncluded rowIntervalIntersects
  simp only [Bool.or_eq_true, Bool.and_eq_true, decide_eq_true_eq]
  constructor
  · rintro (((⟨h1, h2⟩ | ⟨h1, h2⟩) | ⟨h1, h2⟩) | ⟨h1, h2⟩)
    · exact ⟨d1, by omega⟩
    · exact ⟨d2, by omega⟩
    · exact ⟨c1, by omega⟩
    · exact ⟨c2 - 1, by omega⟩
  · rintro ⟨x, hx1, hx2, hx3, hx4⟩
    by_cases h : c1 ≤ d1
    · exact Or.inl (Or.inl (Or.inl ⟨h, by omega⟩))
    · exact Or.inl (Or.inr ⟨by omega, by omega⟩)

/-- Witness for C6 at a concrete input with strictly increasing key rows. -/
theorem btreeChildIncluded_iff_intersects_witness :
    btreeChildIncluded 0 0 0 1 = true ↔ rowIntervalIntersects 0 0 0 1 :=
  btreeChildIncluded_iff_intersects 0 0 0 1 (by decide) (by decide)

/-- The chunk-offset computation of `readBTreeV1`, h5coro.py lines
1730-1737: for each dimension `i`, `slice[i] * typeSize` is multiplied by
`chunkDimensions[k]` for every `k < i` and by `dimensions[j]` for every
`j` in `i+1 .. ndims-1`, and the terms are summed. -/
def chunkOffsetCode (ndims : Nat) (slice chunkDimensions dimensions : List Nat)
    (typeSize : Nat) : Nat :=
  (List.range ndims).foldl
    (fun chunk_offset i =>
      let s1 := slice.getD i 0 * typeSize
      let s2 := (List.range i).foldl (fun s k => s * chunkDimensions.getD k 0) s1
      let s3 := (List.range' (i + 1) (ndims - (i + 1))).foldl
        (fun s j => s * dimensions.getD j 0) s2
      chunk_offset + s3) 0

/-- The row-major linearization formula stated by the spec for claim C7:
`chunk_offset = sum over i of slice[i] * type_size * (product over j > i of
dimensions[j])`. -/
def chunkOffsetRowMajor (ndims : Nat) (slice dimensions : List Nat)
    (typeSize : Nat) : Nat :=
  (List.range ndims).foldl
    (fun acc i =>
      acc + slice.getD i 0 * typeSize *
        (List.range' (i + 1) (ndims - (i + 1))).foldl
          (fun s j => s * dimensions.getD j 0) 1) 0

/-- C7 counterexample: for rank 2 the code formula carries an extra factor
`chunkDimensions[0]` on the second term.  With `typeSize 1`,
`dimensions [4, 4]`, `chunkDimensions [2, 2]` and chunk origin
`slice [0, 2]`, the code places the chunk at byte offset 4 while the
row-major linearization of the spec gives 2. -/
theorem chunkOffsetCode_counterexample :
    chunkOffsetCode 2 [0, 2] [2, 2] [4, 4] 1 = 4 ∧
    chunkOffsetRowMajor 2 [0, 2] [4, 4] 1 = 2 ∧
    chunkOffsetCode 2 [0, 2] [2, 2] [4, 4] 1
      ≠ chunkOffsetRowMajor 2 [0, 2] [4, 4] 1 := by
  refine ⟨rfl, rfl, by decide⟩

/-- C7 amended: the chunk offset computed by the code is
`slice[0] * type_size * dimensions[1] + slice[1] * type_size * chunk_dims[0]`
for rank 2 (the extra `chunk_dims[0]` factor feeds the later flatten step),
and it coincides with the row-major linearization of the spec for rank 0
and rank 1. -/
theorem chunkOffsetCode_closed_form (s0 s1 cd0 cd1 d0 d1 ts : Nat) :
    chunkOffsetCode 2 [s0, s1] [cd0, cd1] [d0, d1] ts
      = s0 * ts * d1 + s1 * ts * cd0 ∧
    chunkOffsetCode 1 [s0] [cd0] [d0] ts = chunkOffsetRowMajor 1 [s0] [d0] ts ∧
    chunkOffsetCode 0 [] [] [] ts = chunkOffsetRowMajor 0 [] [] ts := by
  refine ⟨?_, ?_, rfl⟩
  · show 0 + s0 * ts * d1 + s1 * ts * cd0 = s0 * ts * d1 + s1 * ts * cd0
    omega
  · show 0 + s0 * ts = 0 + s0 * ts * 1
    ring

/-! ## Fill-value initialization (`H5Dataset.readDataset`, h5coro.py lines 274-282) -/

/-- Attribute names assigned on `self` by `H5Dataset.__init__`, h5coro.py
lines 187-218. -/
def h5DatasetInitAttrs : List String :=
  ["resourceObject", "dataset", "credentials", "datasetStartRow",
   "datasetNumRows", "metaOnly", "pos", "datasetPath", "datasetLevel",
   "datasetFound", "ndims", "dimensions", "typeSize", "type", "signedval",
   "fillsize", "fillvalue", "layout", "size", "address", "chunkElements",
   "chunkDimensions", "elementSize", "dataChunkBufferSize", "filter"]

/-- Attribute names assigned by `fillvalueMsgHandler` (h5coro.py lines
857-868) besides the cursor: `self.fillsize` and `self.fillvalue`. -/
def fillvalueMsgAssignedAttrs : List String := ["fillsize", "fillvalue"]

/-- The attribute name the chunk-buffer fill initialization reads,
h5coro.py line 280: `self.fill`. -/
def fillInitAttrRead : String := "fill"

/-- The per-slot little-endian fill pattern the loop of lines 281-282 is
meant to write: byte `i` of the buffer is byte `i mod fill_size` of the
fill value. -/
def fillBufferBytes (buffer_size fillsize fillvalue : Nat) : List Nat :=
  (List.range buffer_size).map (fun i => fillvalue / 256 ^ (i % fillsize) % 256)

/-- The buffer allocation and fill initialization of `readDataset` for a
chunked layout, h5coro.py lines 274-282: when `fillsize > 0` the code
evaluates the attribute `self.fill` to build the fill pattern; in Python,
reading an attribute name that was never assigned raises `AttributeError`.
The zero content of the `fillsize = 0` branch stands for the unspecified
bytes of `numpy.empty`. -/
def readDatasetFillInit (assigned : List String)
    (fillsize fillvalue buffer_size : Nat) : Except PyErr (List Nat) :=
  if fillsize > 0 then
    if fillInitAttrRead ∈ assigned then
      .ok (fillBufferBytes buffer_size fillsize fillvalue)
    else
      .error (.attributeError fillInitAttrRead)
  else
    .ok (List.replicate buffer_size 0)

/-- C9: the claim states that for a chunked dataset with `fill_size > 0`
the output buffer is initialized with the stored fill value.  The code
reads `self.fill`, an attribute assigned neither by the constructor nor by
the fill-value message handler (which stores into `self.fillvalue`), so
for every positive fill size the initialization raises `AttributeError`
instead of filling the buffer. -/
theorem readDataset_fill_init_attribute_error
    (fillsize fillvalue buffer_size : Nat) :
    readDatasetFillInit (h5DatasetInitAttrs ++ fillvalueMsgAssignedAttrs)
      (fillsize + 1) fillvalue buffer_size
      = .error (.attributeError "fill") := by
  have h1 : "fill" ∉ h5DatasetInitAttrs := by decide
  have h2 : "fill" ∉ fillvalueMsgAssignedAttrs := by decide
  simp [readDatasetFillInit, fillInitAttrRead, h1, h2]

/-! ## Group navigation and path splitting (h5coro.py lines 194, 927-929, 1386-1394) -/

/-- An HDF5 object as seen by the group navigation: a group is its ordered
list of named links, a dataset its content bytes.  The byte layout of
B-tree nodes, symbol tables and heaps is abstracted into the entry list;
the name matching below is the one performed by the source. -/
inductive H5Object where
  | dataset (content : List Nat)
  | group (entries : List (String × H5Object))

/-- The per-entry name comparison of the navigators: `readSymbolTable`
line 1387 and `linkMsgHandler` line 928 compare each link name against
`self.datasetPath[self.datasetLevel]` and descend on the first match. -/
def findLink : List (String × H5Object) → String → Option H5Object
  | [], _ => none
  | (name, obj) :: rest, comp =>
      if name == comp then some obj else findLink rest comp

/-- Group navigation driven by `datasetPath` as split in `H5Dataset.__init__`
line 194 (`dataset.split('/')`, no component filtered): each component must
match a link name by string equality; when all components are consumed the
walk has found the object, and a dataset yields its content. -/
def resolvePath : H5Object → List String → Option (List Nat)
  | .dataset c, [] => some c
  | .group _, [] => none
  | .dataset _, _ :: _ => none
  | .group entries, comp :: rest =>
      match findLink entries comp with
      | some child => resolvePath child rest
      | none => none

/-- The list-of-characters splitter underlying `pySplit`: split at every
occurrence of the separator, keeping empty pieces, exactly as the Python
`str.split(sep)` does. -/
def splitOnChar (sep : Char) : List Char → List (List Char)
  | [] => [[]]
  | c :: rest =>
      let r := splitOnChar sep rest
      if c == sep then [] :: r
      else
        match r with
        | [] => [[c]]
        | h :: t => (c :: h) :: t

/-- Python `str.split` with a one-character separator, as invoked by
`H5Dataset.__init__` line 194: `self.datasetPath = dataset.split('/')`.
A leading separator yields an empty first component; nothing is
filtered. -/
def pySplit (s : String) (sep : Char) : List String :=
  (splitOnChar sep s.toList).map String.mk

/-- A concrete file tree shaped like the S5 scenario of the spec. -/
def demoTree : H5Object :=
  .group [("gt2l", .group [("heights", .group [("h_ph", .dataset [1, 2])])])]

/-- C10: the claim (and the repository test `test_read_datasets`) states
that a path with a leading slash reads identically to the path without it.
Splitting `"/gt2l/heights/h_ph"` on `/` yields an empty first component
which the code never filters; since no link name equals the empty string,
the navigation that resolves `"gt2l/heights/h_ph"` fails on the
slash-prefixed path instead of producing the same bytes. -/
theorem leading_slash_path_not_found :
    pySplit "/gt2l/heights/h_ph" '/' = "" :: pySplit "gt2l/heights/h_ph" '/' ∧
    resolvePath demoTree (pySplit "gt2l/heights/h_ph" '/') = some [1, 2] ∧
    resolvePath demoTree (pySplit "/gt2l/heights/h_ph" '/') = none := by
  refine ⟨?_, ?_, ?_⟩ <;> rfl
